import Mathlib

/-!
Verification development for the monitor-xs-ip2 activity-reconstruction pipeline.

The Python sources are shallowly embedded as Lean definitions:

* IEEE-754 floats are modelled by exact fields (`ℚ` for the purely
  order/equality-based peak matching, `ℝ` where `exp`, `log` and `sqrt`
  occur).  The single place where the code manipulates a NaN
  (`np.nan_to_num(err_act, nan=0.0)` in `Radionuclide.calculate_activity`)
  is modelled with `Option ℝ`: `none` stands for the NaN produced when a
  zero net count is divided out, and `nan_to_num` maps it to `0`.
* numpy element-wise arithmetic on equal-length 1-D arrays becomes
  `List.zipWith`/`List.map`.
* Python exceptions become `Except` values; the exception class and message
  are carried by the `PyError` inductive.
* External collaborators that the spec declares out of scope (pandas/Excel
  I/O, `re` pattern matching against free report text, `scipy.interp1d`)
  are abstracted as function parameters; the control flow that consumes
  their answers is embedded faithfully.
-/

set_option maxHeartbeats 1000000

namespace MonitorXS

/-- Monadic map over `Option`, written with explicit matches so that
induction proofs unfold it directly.  It models a Python loop that appends
one result per iteration and aborts the whole call when an iteration
raises. -/
def optionMapM {β γ : Type} (f : β → Option γ) : List β → Option (List γ)
  | [] => some []
  | a :: l =>
    match f a with
    | none => none
    | some b =>
      match optionMapM f l with
      | none => none
      | some bs => some (b :: bs)

/-- Python exception values raised by the embedded code: the constructor is
the exception class, the argument its message. -/
inductive PyError
  | typeError (msg : String)
  | keyError (msg : String)
  | valueError (msg : String)
  | fileNotFoundError (msg : String)
  | ioError (msg : String)
deriving DecidableEq

/-- Monadic map over `Except`, with explicit matches; models a Python loop
whose body may raise, aborting the loop. -/
def exceptMapM {β γ : Type} (f : β → Except PyError γ) : List β → Except PyError (List γ)
  | [] => .ok []
  | a :: l =>
    match f a with
    | .error e => .error e
    | .ok b =>
      match exceptMapM f l with
      | .error e => .error e
      | .ok bs => .ok (b :: bs)

/-- One detected peak from a parsed report: energy, net area and its
uncertainty (a row of `report.energy`, `report.net_counts`,
`report.err_net_counts` in `src/python/spectrometry.py`). -/
structure Peak (α : Type) where
  energy : α
  net_counts : α
  err_net_counts : α
deriving DecidableEq

/-- Tolerance test of `Measurement.get_net_counts`
(`src/python/measurement.py:155`): a measured peak matches a selected line
when `Ey_m < Ey_s + 1.` and `Ey_m > Ey_s - 1.`. -/
def matchesLine {α : Type} [LinearOrderedField α] (Ey_s : α) (p : Peak α) : Bool :=
  decide (p.energy < Ey_s + 1) && decide (Ey_s - 1 < p.energy)

/-- Absolute energy deviation `abs(Ey_m - Ey_s)` recorded in the
`deviations` array (`src/python/measurement.py:159`). -/
def deviation {α : Type} [LinearOrderedField α] (Ey_s : α) (p : Peak α) : α :=
  |p.energy - Ey_s|

/-- The sub-list of peaks that fall within the tolerance window, in report
order (the `net_counts_matches`/`deviations` arrays built by the inner loop
of `get_net_counts`). -/
def matchedPeaks {α : Type} [LinearOrderedField α] (peaks : List (Peak α)) (Ey_s : α) :
    List (Peak α) :=
  peaks.filter (matchesLine Ey_s)

/-- numpy `deviations.min()` over the non-empty deviation array. -/
def minDeviation {α : Type} [LinearOrderedField α] (Ey_s : α) : List (Peak α) → α
  | [] => 0
  | p :: rest => (rest.map (deviation Ey_s)).foldl min (deviation Ey_s p)

/-- One line of `Measurement.get_net_counts`
(`src/python/measurement.py:143-172`): collect the peaks within tolerance;
with exactly one match take it, with several matches take
`float(net_counts_matches[deviations == deviations.min()])` — `float`
succeeds only when exactly one entry attains the minimum and raises
otherwise (modelled as `none`) — and with no match append the sentinel
`(0.0, 0.0)`. -/
def getNetCountsLine {α : Type} [LinearOrderedField α] [DecidableEq α]
    (peaks : List (Peak α)) (Ey_s : α) : Option (α × α) :=
  match matchedPeaks peaks Ey_s with
  | [] => some (0, 0)
  | [p] => some (p.net_counts, p.err_net_counts)
  | p :: q :: rest =>
    match (p :: q :: rest).filter
        (fun r => decide (deviation Ey_s r = minDeviation Ey_s (p :: q :: rest))) with
    | [r] => some (r.net_counts, r.err_net_counts)
    | _ => none

/-- Whole-radionuclide `get_net_counts`: one `(net_counts, err_net_counts)`
entry per candidate gamma line, accumulated into the two per-line-aligned
sequences (`src/python/measurement.py:143-176`). -/
def getNetCounts {α : Type} [LinearOrderedField α] [DecidableEq α]
    (peaks : List (Peak α)) (g_energies : List α) : Option (List α × List α) :=
  match optionMapM (getNetCountsLine peaks) g_energies with
  | none => none
  | some l => some (l.map Prod.fst, l.map Prod.snd)

/-- Dead-time correction factor `C_dt = real_time / live_time`
(`src/monitor_xs_ip2/radionuclide.py:102`). -/
noncomputable def C_dt (real_time live_time : ℝ) : ℝ := real_time / live_time

/-- Uncertainty of `C_dt` with `err_real_time = err_live_time = 0.0`
(`src/monitor_xs_ip2/radionuclide.py:99-103`). -/
noncomputable def err_C_dt (real_time live_time : ℝ) : ℝ :=
  C_dt real_time live_time * Real.sqrt ((0 / live_time) ^ 2 + (0 / real_time) ^ 2)

/-- Decay-during-measurement correction
`C_meas = lambda / (1 - exp(-lambda * real_time))`
(`src/monitor_xs_ip2/radionuclide.py:106`). -/
noncomputable def C_meas (Lambda real_time : ℝ) : ℝ :=
  Lambda / (1 - Real.exp (-Lambda * real_time))

/-- Uncertainty of `C_meas` (`src/monitor_xs_ip2/radionuclide.py:107-108`). -/
noncomputable def err_C_meas (Lambda err_Lambda real_time : ℝ) : ℝ :=
  (1 - Real.exp (-Lambda * real_time) * (1 + Lambda * real_time)) /
    (1 - Real.exp (-Lambda * real_time)) ^ 2 * err_Lambda

/-- Per-gamma-line activity
`act = C_dt * C_meas * net_counts / (eff * intensities / 100)`
(`src/monitor_xs_ip2/radionuclide.py:114`). -/
noncomputable def act_entry (cdt cmeas nc eff inten : ℝ) : ℝ :=
  cdt * cmeas * nc / (eff * inten / 100)

/-- Per-gamma-line activity uncertainty before `np.nan_to_num`
(`src/monitor_xs_ip2/radionuclide.py:117-136`): the quadrature sum of the
relative uncertainties of net counts, efficiency and intensity plus the two
correction-factor terms, scaled by the activity.  When the net count is
zero the float computation produces NaN (the `err/0` or `0/0` column
propagates through the square root and is multiplied by the zero
activity); that NaN is modelled as `none`.  Zero efficiencies or
intensities would instead produce infinities and lie outside this model;
every theorem below assumes them nonzero. -/
noncomputable def err_act_entry (cdt ecdt cmeas ecmeas nc enc eff eeff inten einten : ℝ) :
    Option ℝ :=
  if nc = 0 then none
  else
    some (Real.sqrt ((enc / nc) ^ 2 + (eeff / eff) ^ 2 +
        ((einten / 100) / (inten / 100)) ^ 2 +
        (ecdt / cdt) ^ 2 + (ecmeas / cmeas) ^ 2) *
      act_entry cdt cmeas nc eff inten)

/-- numpy `np.nan_to_num(x, nan=0.0)` on the NaN model
(`src/monitor_xs_ip2/radionuclide.py:139`). -/
noncomputable def nan_to_num (x : Option ℝ) : ℝ := x.getD 0

/-- The body of `Radionuclide.calculate_activity`
(`src/monitor_xs_ip2/radionuclide.py:77-139`): the efficiency function
(`efficiency_fun(Ey, level, detector)`) is the `eff` parameter, evaluated
on every entry of `g_energies`; activities and their uncertainties are
element-wise over the per-line-aligned arrays. -/
noncomputable def calculate_activity (eff : ℝ → ℝ × ℝ) (Lambda err_Lambda real_time live_time : ℝ)
    (g_energies net_counts err_net_counts intensities err_intensities : List ℝ) :
    List ℝ × List ℝ :=
  (List.zipWith
    (fun ef ni =>
      act_entry (C_dt real_time live_time) (C_meas Lambda real_time) ni.1 ef.1 ni.2)
    (g_energies.map eff) (net_counts.zip intensities),
   List.zipWith
    (fun (en : (ℝ × ℝ) × ℝ × ℝ) (ie : ℝ × ℝ) =>
      nan_to_num (err_act_entry (C_dt real_time live_time) (err_C_dt real_time live_time)
        (C_meas Lambda real_time) (err_C_meas Lambda err_Lambda real_time)
        en.2.1 en.2.2 en.1.1 en.1.2 ie.1 ie.2))
    ((g_energies.map eff).zip (net_counts.zip err_net_counts))
    (intensities.zip err_intensities))

/-- Cooling-time correction `C_cool = exp(lambda * t_cool)`
(`src/monitor_xs_ip2/radionuclide.py:157`). -/
noncomputable def C_cool (Lambda t_cool : ℝ) : ℝ := Real.exp (Lambda * t_cool)

/-- Uncertainty of `C_cool` (`src/monitor_xs_ip2/radionuclide.py:158`). -/
noncomputable def err_C_cool (Lambda err_Lambda t_cool : ℝ) : ℝ :=
  t_cool * C_cool Lambda t_cool * err_Lambda

/-- The body of `Radionuclide.calculate_eob_act`
(`src/monitor_xs_ip2/radionuclide.py:141-176`): `act_eob = act * C_cool`;
the uncertainty array is pre-allocated with zeros and filled only where
`act != 0` with the quadrature combination, so entries with zero activity
keep uncertainty exactly `0`. -/
noncomputable def calculate_eob_act (Lambda err_Lambda t_cool : ℝ) (act err_act : List ℝ) :
    List ℝ × List ℝ :=
  (act.map (fun a => a * C_cool Lambda t_cool),
   List.zipWith
    (fun a ea =>
      if a = 0 then 0
      else
        Real.sqrt ((ea / a) ^ 2 +
            (err_C_cool Lambda err_Lambda t_cool / C_cool Lambda t_cool) ^ 2) *
          (a * C_cool Lambda t_cool))
    act err_act)

/-- Data held by a `Radionuclide` instance that `__eq__` and
`RadionuclideList.__getitem__` can observe
(`src/monitor_xs_ip2/radionuclide.py:14-48`). -/
structure RadionuclideData where
  name : String
  half_life : ℚ
  err_half_life : ℚ
  uom : String
  g_line : ℚ
deriving DecidableEq

/-- The runtime class of the `other` operand of `Radionuclide.__eq__`:
a `str`, a `Radionuclide`, or anything else (carrying its printed form). -/
inductive PyValue
  | str (s : String)
  | nuclide (r : RadionuclideData)
  | other (descr : String)

/-- Embedding of `Radionuclide.__eq__`
(`src/monitor_xs_ip2/radionuclide.py:178-184`): strings and radionuclides
are compared by name only; any other operand raises `TypeError`. -/
def radionuclide_eq (self : RadionuclideData) : PyValue → Except PyError Bool
  | .str s => .ok (decide (s = self.name))
  | .nuclide r => .ok (decide (r.name = self.name))
  | .other d => .error (.typeError (d ++ " is not a string or a Radionuclide object."))

/-- Embedding of the string-key branch of `RadionuclideList.__getitem__`
(`src/monitor_xs_ip2/radionuclide.py:235-241`): scan the list in order,
return the first item with `item == key` (which by `__eq__` is
`key == item.name`), else raise `KeyError`. -/
def radionuclideList_getitem_str : List RadionuclideData → String → Except PyError RadionuclideData
  | [], key => .error (.keyError ("No radionuclide found with name " ++ key))
  | item :: rest, key =>
    if key = item.name then .ok item else radionuclideList_getitem_str rest key

/-- Boolean-mask selection `vals[g_energies == g_line]` followed by
`float(...)`, as used in `Target.calculate_mean_act_eob`
(`src/monitor_xs_ip2/target.py:203-204`); `float` succeeds only when the
mask selects exactly one entry. -/
def selectAtLine {α : Type} [DecidableEq α] (g_energies : List α) (g_line : α)
    (vals : List α) : Option α :=
  match (g_energies.zip vals).filter (fun ev => decide (ev.1 = g_line)) with
  | [ev] => some ev.2
  | _ => none

/-- The collection loop of `Target.calculate_mean_act_eob`
(`src/monitor_xs_ip2/target.py:200-204`): for every measurement, append the
selected-gamma-line EoB activity and its uncertainty to the target-level
lists.  Note that the loop appends unconditionally — there is no non-zero
filter, although the surrounding comments claim the result holds only
non-zero activities. -/
def collect_act_eob {α : Type} [DecidableEq α] (g_energies : List α) (g_line : α)
    (measurements : List (List α × List α)) : Option (List (α × α)) :=
  optionMapM (fun m =>
    match selectAtLine g_energies g_line m.1, selectAtLine g_energies g_line m.2 with
    | some a, some e => some (a, e)
    | _, _ => none) measurements

/-- The aggregation cases of `Target.calculate_mean_act_eob`
(`src/monitor_xs_ip2/target.py:211-230`): size 0 keeps the initial
`(0, 0)`, size 1 copies the single entry verbatim, and otherwise the
inverse-variance-weighted mean is taken with
`err = sqrt(1 / sum(weights))`. -/
noncomputable def mean_act_eob (xs : List (ℝ × ℝ)) : ℝ × ℝ :=
  match xs with
  | [] => (0, 0)
  | [x] => x
  | x :: y :: rest =>
    let weights := (x :: y :: rest).map (fun v => 1 / v.2 ^ 2)
    ((List.zipWith (fun w v => w * Prod.fst v) weights (x :: y :: rest)).sum / weights.sum,
     Real.sqrt (1 / weights.sum))

/-- A fitted efficiency calibration `[p, b, X, W, MSE]` as returned by
`efficiency_function_calibration` (`src/python/spectrometry.py:18-156`),
keyed in the source by detector and level. -/
structure Calib (n p : ℕ) where
  b : Fin p → ℝ
  X : Matrix (Fin n) (Fin p) ℝ
  W : Matrix (Fin n) (Fin n) ℝ
  MSE : ℝ

/-- The query vector `X_m = [log(ey)^0, ..., log(ey)^(p-1)]` built by both
branches of `efficiency_fun` (`src/python/spectrometry.py:208-210` and
`218-220`). -/
noncomputable def X_m (p : ℕ) (ey : ℝ) : Fin p → ℝ := fun i => Real.log ey ^ (i : ℕ)

/-- The scalar branch of `efficiency_fun`
(`src/python/spectrometry.py:217-226`): `Y_m = b . X_m`,
`err_Y_m = sqrt(MSE * X_m^T (X^T W X)^{-1} X_m)`, efficiency `exp(Y_m)`
with uncertainty `exp(Y_m) * err_Y_m`. -/
noncomputable def effAt {n p : ℕ} (c : Calib n p) (ey : ℝ) : ℝ × ℝ :=
  (Real.exp (Matrix.dotProduct c.b (X_m p ey)),
   Real.exp (Matrix.dotProduct c.b (X_m p ey)) *
     Real.sqrt (c.MSE * Matrix.dotProduct (X_m p ey)
       (Matrix.mulVec (c.X.transpose * c.W * c.X)⁻¹ (X_m p ey))))

/-- The sequence branch of `efficiency_fun`
(`src/python/spectrometry.py:204-216`): loop over the energies, appending
the efficiency and its uncertainty to two result lists. -/
noncomputable def efficiency_fun_list {n p : ℕ} (c : Calib n p) (Ey_s : List ℝ) :
    List ℝ × List ℝ :=
  Ey_s.foldl (fun acc ey => (acc.1 ++ [(effAt c ey).1], acc.2 ++ [(effAt c ey).2])) ([], [])

/-- Modelled from the spec (section 4.2): evaluating a sequence of energies
means evaluating each energy independently with the same fitted
coefficients — the element-wise map of the scalar evaluator.  Used as the
specification side of the refinement claim about `efficiency_fun`. -/
noncomputable def efficiency_seq_spec {n p : ℕ} (c : Calib n p) (Ey_s : List ℝ) :
    List ℝ × List ℝ :=
  (Ey_s.map (fun ey => (effAt c ey).1), Ey_s.map (fun ey => (effAt c ey).2))

/-- The required metadata keys of `Report.get_report_Genie2K`
(`src/python/spectrometry.py:348-353`). -/
def genie_keys : List String :=
  ["tar_id", "detector_level", "detector", "datetime_meas", "live_time", "real_time"]

/-- Message of the `ValueError` raised for a missing Genie2K metadata field
(`src/python/spectrometry.py:380`, quotes around the key omitted). -/
def missingFieldMsg (k : String) : String := "Value for " ++ k ++ " not found."

/-- One iteration of the Genie2K metadata loop
(`src/python/spectrometry.py:360-380`): `re.findall` for the pattern of key
`k` is the oracle `findall k`; an empty match list raises `ValueError`,
otherwise the first match is stored.  Type conversions of the stored value
(date reformatting, `float`) are not observable by the claims and are left
as the raw matched string. -/
def genie_field (findall : String → List String) (k : String) : Except PyError (String × String) :=
  match findall k with
  | [] => .error (.valueError (missingFieldMsg k))
  | v :: _ => .ok (k, v)

/-- The Genie2K metadata loop over all required keys. -/
def genie_metadata (findall : String → List String) : Except PyError (List (String × String)) :=
  exceptMapM (genie_field findall) genie_keys

/-- The first required key whose pattern has no match, if any. -/
def firstMissingKey (findall : String → List String) : Option String :=
  genie_keys.find? (fun k => (findall k).isEmpty)

/-- The metadata stored when every required pattern matches: each key with
the first match of its pattern. -/
def genie_meta_values (findall : String → List String) : List (String × String) :=
  genie_keys.map (fun k => (k, (findall k).headD ""))

/-- The Genie2K peak-collection loop (`src/python/spectrometry.py:386-401`):
rows are parsed only after the header line is seen; each later line that
matches the data pattern contributes one `(energy, net, uncert)` row.
`isHeader` abstracts `re.search(header_data, line)` and `dataMatch`
abstracts `re.search(pattern_data, line)`. -/
def genie_peaks (isHeader : String → Bool) (dataMatch : String → Option (ℚ × ℚ × ℚ)) :
    List String → Bool → List (ℚ × ℚ × ℚ)
  | [], _ => []
  | line :: rest, collecting =>
    if isHeader line then genie_peaks isHeader dataMatch rest true
    else if collecting then
      match dataMatch line with
      | some row => row :: genie_peaks isHeader dataMatch rest collecting
      | none => genie_peaks isHeader dataMatch rest collecting
    else genie_peaks isHeader dataMatch rest collecting

/-- Embedding of `Report.get_report_Genie2K`
(`src/python/spectrometry.py:326-401`): the metadata loop runs first and a
missing field raises; then the peak rows are collected.  No error of any
kind is raised for an empty peak list. -/
def get_report_Genie2K (findall : String → List String) (isHeader : String → Bool)
    (dataMatch : String → Option (ℚ × ℚ × ℚ)) (lines : List String) :
    Except PyError (List (String × String) × List (ℚ × ℚ × ℚ)) :=
  match genie_metadata findall with
  | .error e => .error e
  | .ok meta => .ok (meta, genie_peaks isHeader dataMatch lines false)

/-- The metadata keys matched line by line by `Report.get_report_InterWinner`
(`src/python/spectrometry.py:259-262`). -/
def iw_keys : List String := ["live_time", "real_time", "datetime_meas", "detector_level"]

/-- The line loop of `Report.get_report_InterWinner`
(`src/python/spectrometry.py:280-319`): on every line each metadata
pattern is tried (`acqMatch k line` abstracts `re.search` for key `k`) and
any match is recorded; the start marker switches peak collection on
(`continue`), the stop marker ends the loop (`break`), and while
collecting, each line matching the data pattern contributes one peak row.
No branch raises: missing metadata fields are silently left unset. -/
def interwinner_loop (acqMatch : String → String → Option String)
    (isStart isStop : String → Bool) (dataMatch : String → Option (ℚ × ℚ × ℚ)) :
    List String → Bool → List (String × String) × List (ℚ × ℚ × ℚ)
  | [], _ => ([], [])
  | line :: rest, collecting =>
    let found := iw_keys.filterMap (fun k => (acqMatch k line).map (fun v => (k, v)))
    if isStart line then
      let r := interwinner_loop acqMatch isStart isStop dataMatch rest true
      (found ++ r.1, r.2)
    else if isStop line then (found, [])
    else
      match dataMatch line, collecting with
      | some row, true =>
        let r := interwinner_loop acqMatch isStart isStop dataMatch rest collecting
        (found ++ r.1, row :: r.2)
      | _, _ =>
        let r := interwinner_loop acqMatch isStart isStop dataMatch rest collecting
        (found ++ r.1, r.2)

/-- Embedding of `Report.get_report_InterWinner`
(`src/python/spectrometry.py:244-324`): the whole parse is the line loop
started with collection off; its type is a plain pair because the function
contains no `raise` at all. -/
def get_report_InterWinner (acqMatch : String → String → Option String)
    (isStart isStop : String → Bool) (dataMatch : String → Option (ℚ × ℚ × ℚ))
    (lines : List String) : List (String × String) × List (ℚ × ℚ × ℚ) :=
  interwinner_loop acqMatch isStart isStop dataMatch lines false

/-- ASCII letter test for the `[a-zA-Z]` character class. -/
def isAsciiLetter (c : Char) : Bool := (('a' ≤ c) && (c ≤ 'z')) || (('A' ≤ c) && (c ≤ 'Z'))

/-- Embedding of the `re.fullmatch` against the nuclide-name pattern
(one or more ASCII letters, a dash, one or more digits; digits taken as
ASCII) of `src/monitor_xs_ip2/cross_section.py:16,43`.  Because letters,
the dash and digits are disjoint character classes, the greedy
decomposition is exact. -/
def matchesNuclidePattern (s : String) : Bool :=
  let cs := s.toList
  let alpha := cs.takeWhile isAsciiLetter
  (!alpha.isEmpty) &&
    (match cs.drop alpha.length with
     | '-' :: ds => (!ds.isEmpty) && ds.all Char.isDigit
     | _ => false)

/-- Outcome of `pd.read_csv` on the cross-section file, abstracting the
pandas collaborator (`src/monitor_xs_ip2/cross_section.py:56-64`). -/
inductive CsvReadResult
  | ok (rows : List (ℝ × ℝ × ℝ))
  | emptyData
  | parserError
  | otherError

/-- Message of the bad-name `ValueError`
(`src/monitor_xs_ip2/cross_section.py:44`, quotes omitted). -/
def badPatternMsg (nuc : String) : String :=
  "Input nuclide name " ++ nuc ++ " does not match the required input pattern: (Chemical element)-(Mass No.)."

/-- Message of the missing-table `FileNotFoundError`
(`src/monitor_xs_ip2/cross_section.py:54`, quotes omitted). -/
def notFoundMsg (nuc : String) : String :=
  "Monitor cross section data for nuclide " ++ nuc ++ " not found."

/-- Message of the empty-CSV `ValueError`
(`src/monitor_xs_ip2/cross_section.py:60`, quotes omitted). -/
def emptyCsvMsg (nuc : String) : String := "CSV file for nuclide " ++ nuc ++ " is empty."

/-- Message of the malformed-CSV `ValueError`
(`src/monitor_xs_ip2/cross_section.py:62`, quotes omitted). -/
def malformedCsvMsg (nuc : String) : String :=
  "Error parsing the CSV file for nuclide " ++ nuc ++ "."

/-- Message of the generic `IOError`
(`src/monitor_xs_ip2/cross_section.py:64`, quotes omitted). -/
def ioErrorMsg (nuc : String) : String :=
  "An error occurred while reading the file for nuclide " ++ nuc ++ "."

/-- Embedding of `load_monitor_cross_section`
(`src/monitor_xs_ip2/cross_section.py:18-64`): reject names that fail the
`Element-MassNumber` pattern with `ValueError`; raise `FileNotFoundError`
when the data directory (`xs_keys`, the file names without extension) has
no entry for the nuclide; translate pandas failures into `ValueError`
(empty or malformed CSV) or `IOError`. -/
def load_monitor_cross_section (nuc : String) (xs_keys : List String) (read : CsvReadResult) :
    Except PyError (List (ℝ × ℝ × ℝ)) :=
  if matchesNuclidePattern nuc then
    if nuc ∈ xs_keys then
      match read with
      | .ok rows => .ok rows
      | .emptyData => .error (.valueError (emptyCsvMsg nuc))
      | .parserError => .error (.valueError (malformedCsvMsg nuc))
      | .otherError => .error (.ioError (ioErrorMsg nuc))
    else .error (.fileNotFoundError (notFoundMsg nuc))
  else .error (.valueError (badPatternMsg nuc))

/-- Elementary charge `Q` (`src/python/activity_evaluation.py:15`). -/
noncomputable def qElem : ℝ := 1.6021766208e-19

/-- Projectile charge `Z` (`src/python/activity_evaluation.py:14`). -/
noncomputable def zProj : ℝ := 1

/-- Avogadro number (`src/python/activity_evaluation.py:16`). -/
noncomputable def nAvo : ℝ := 6.022140857e23

/-- Conversion factor micro-Ampere to Ampere (`activity_evaluation.py:19`). -/
noncomputable def uA_TO_A : ℝ := 10 ^ (-(6 : ℤ))

/-- Conversion factor millibarn to cm^2 (`activity_evaluation.py:20`). -/
noncomputable def MBARN_TO_CM2 : ℝ := 10 ^ (-(27 : ℤ))

/-- Conversion factor micrometer to cm (`activity_evaluation.py:21`). -/
noncomputable def uM_TO_CM : ℝ := 10 ^ (-(4 : ℤ))

/-- Embedding of `evaluate_eob_activity`
(`src/python/activity_evaluation.py:25-76`): load (and interpolate) the
monitor cross section — any exception from the loader propagates and no
activity is returned — then apply the thin-target activation formula.  The
scipy piecewise-linear interpolator is abstracted as the `f_xs`
parameter. -/
noncomputable def evaluate_eob_activity (f_xs : List (ℝ × ℝ × ℝ) → ℝ → ℝ)
    (nuc : String) (xs_keys : List String) (read : CsvReadResult)
    (energy t_irr current density foil_thickness lambda_ mol_weight : ℝ) : Except PyError ℝ :=
  match load_monitor_cross_section nuc xs_keys read with
  | .error e => .error e
  | .ok rows =>
    .ok (f_xs rows energy * MBARN_TO_CM2 * (current * uA_TO_A) * nAvo * density *
      (foil_thickness * uM_TO_CM) * (1 - Real.exp (-lambda_ * t_irr)) /
      (qElem * zProj * mol_weight))

/-! Helper lemmas about list indexing, monadic maps and running minima. -/

theorem getD_zipWith {β γ δ : Type} (f : β → γ → δ) :
    ∀ (l₁ : List β) (l₂ : List γ) (i : ℕ), i < l₁.length → i < l₂.length →
      ∀ (d : δ) (d₁ : β) (d₂ : γ),
        (List.zipWith f l₁ l₂).getD i d = f (l₁.getD i d₁) (l₂.getD i d₂)
  | [], _, i, h₁, _, _, _, _ => absurd h₁ (Nat.not_lt_zero i)
  | _ :: _, [], i, _, h₂, _, _, _ => absurd h₂ (Nat.not_lt_zero i)
  | _ :: _, _ :: _, 0, _, _, _, _, _ => rfl
  | _ :: l₁, _ :: l₂, i + 1, h₁, h₂, d, d₁, d₂ =>
    getD_zipWith f l₁ l₂ i (Nat.lt_of_succ_lt_succ h₁) (Nat.lt_of_succ_lt_succ h₂) d d₁ d₂

theorem getD_map {β γ : Type} (f : β → γ) :
    ∀ (l : List β) (i : ℕ), i < l.length → ∀ (d : γ) (d₁ : β),
      (l.map f).getD i d = f (l.getD i d₁)
  | [], i, h, _, _ => absurd h (Nat.not_lt_zero i)
  | _ :: _, 0, _, _, _ => rfl
  | _ :: l, i + 1, h, d, d₁ => getD_map f l i (Nat.lt_of_succ_lt_succ h) d d₁

theorem getD_zip {β γ : Type} (l₁ : List β) (l₂ : List γ) (i : ℕ) (h₁ : i < l₁.length)
    (h₂ : i < l₂.length) (d : β × γ) (d₁ : β) (d₂ : γ) :
    (l₁.zip l₂).getD i d = (l₁.getD i d₁, l₂.getD i d₂) :=
  getD_zipWith Prod.mk l₁ l₂ i h₁ h₂ d d₁ d₂

theorem optionMapM_length {β γ : Type} (f : β → Option γ) :
    ∀ (l : List β) (bs : List γ), optionMapM f l = some bs → bs.length = l.length := by
  intro l
  induction l with
  | nil =>
    intro bs h
    simp only [optionMapM, Option.some.injEq] at h
    subst h
    rfl
  | cons a l ih =>
    intro bs h
    simp only [optionMapM] at h
    cases hfa : f a with
    | none => rw [hfa] at h; exact absurd h (by simp)
    | some b =>
      rw [hfa] at h
      cases hrec : optionMapM f l with
      | none => rw [hrec] at h; exact absurd h (by simp)
      | some cs =>
        rw [hrec] at h
        simp only [Option.some.injEq] at h
        subst h
        simp [ih cs hrec]

theorem foldl_min_le_init {α : Type} [LinearOrder α] :
    ∀ (l : List α) (a : α), l.foldl min a ≤ a
  | [], a => le_refl a
  | b :: l, a => le_trans (foldl_min_le_init l (min a b)) (min_le_left a b)

theorem foldl_min_le_mem {α : Type} [LinearOrder α] :
    ∀ (l : List α) (a x : α), x ∈ l → l.foldl min a ≤ x := by
  intro l
  induction l with
  | nil => intro a x hx; cases hx
  | cons b l ih =>
    intro a x hx
    rcases List.mem_cons.mp hx with h | h
    · subst h
      exact le_trans (foldl_min_le_init l (min a x)) (min_le_right a x)
    · exact ih (min a b) x h

theorem foldl_min_attained {α : Type} [LinearOrder α] :
    ∀ (l : List α) (a : α), l.foldl min a = a ∨ l.foldl min a ∈ l
  | [], _ => Or.inl rfl
  | b :: l, a => by
    rcases foldl_min_attained l (min a b) with h | h
    · rcases min_choice a b with h2 | h2
      · exact Or.inl (by rw [List.foldl_cons, h, h2])
      · exact Or.inr (by rw [List.foldl_cons, h, h2]; exact List.mem_cons_self b l)
    · exact Or.inr (List.mem_cons_of_mem b h)

theorem minDeviation_le {α : Type} [LinearOrderedField α] (Ey_s : α) (p : Peak α)
    (l : List (Peak α)) : ∀ r ∈ p :: l, minDeviation Ey_s (p :: l) ≤ deviation Ey_s r := by
  intro r hr
  rcases List.mem_cons.mp hr with h | h
  · subst h
    exact foldl_min_le_init _ _
  · exact foldl_min_le_mem _ _ _ (List.mem_map_of_mem (deviation Ey_s) h)

theorem minDeviation_attained {α : Type} [LinearOrderedField α] (Ey_s : α) (p : Peak α)
    (l : List (Peak α)) : ∃ r ∈ p :: l, deviation Ey_s r = minDeviation Ey_s (p :: l) := by
  rcases foldl_min_attained (l.map (deviation Ey_s)) (deviation Ey_s p) with h | h
  · exact ⟨p, List.mem_cons_self p l, h.symm⟩
  · obtain ⟨r, hr, hrd⟩ := List.mem_map.mp h
    exact ⟨r, List.mem_cons_of_mem p hr, hrd⟩

theorem foldl_append_pair {β γ δ : Type} (h : β → γ × δ) :
    ∀ (l : List β) (acc : List γ × List δ),
      l.foldl (fun acc x => (acc.1 ++ [(h x).1], acc.2 ++ [(h x).2])) acc =
        (acc.1 ++ l.map (fun x => (h x).1), acc.2 ++ l.map (fun x => (h x).2))
  | [], acc => by simp
  | a :: l, acc => by
    rw [List.foldl_cons, foldl_append_pair h l]
    simp

theorem exceptMapM_error_of_firstMissing (findall : String → List String) :
    ∀ (keys : List String) (k : String),
      keys.find? (fun k => (findall k).isEmpty) = some k →
      exceptMapM (genie_field findall) keys = .error (.valueError (missingFieldMsg k)) := by
  intro keys
  induction keys with
  | nil => intro k h; simp [List.find?] at h
  | cons a keys ih =>
    intro k h
    rw [List.find?_cons] at h
    cases hae : (findall a).isEmpty with
    | true =>
      rw [hae] at h
      simp only [Option.some.injEq] at h
      subst h
      have ha : findall a = [] := List.isEmpty_iff.mp hae
      simp [exceptMapM, genie_field, ha]
    | false =>
      rw [hae] at h
      have ha : findall a ≠ [] := by
        intro hnil
        rw [hnil] at hae
        simp [List.isEmpty] at hae
      cases hfa : findall a with
      | nil => exact absurd hfa ha
      | cons v vs =>
        simp only [exceptMapM, genie_field, hfa, ih k h]

theorem exceptMapM_ok_of_all (findall : String → List String) :
    ∀ (keys : List String), (∀ k ∈ keys, findall k ≠ []) →
      exceptMapM (genie_field findall) keys =
        .ok (keys.map (fun k => (k, (findall k).headD ""))) := by
  intro keys
  induction keys with
  | nil => intro _; rfl
  | cons a keys ih =>
    intro h
    cases hfa : findall a with
    | nil => exact absurd hfa (h a (List.mem_cons_self a keys))
    | cons v vs =>
      have hrest := ih (fun k hk => h k (List.mem_cons_of_mem a hk))
      simp only [exceptMapM, genie_field, hfa, hrest, List.map_cons, List.headD]

theorem iw_loop_no_meta (isStart isStop : String → Bool)
    (dataMatch : String → Option (ℚ × ℚ × ℚ)) :
    ∀ (lines : List String) (collecting : Bool),
      (interwinner_loop (fun _ _ => none) isStart isStop dataMatch lines collecting).1 = []
  | [], _ => rfl
  | line :: rest, collecting => by
    have h1 := iw_loop_no_meta isStart isStop dataMatch rest true
    have h2 := iw_loop_no_meta isStart isStop dataMatch rest collecting
    have hfound : iw_keys.filterMap
        (fun k => ((fun _ _ => (none : Option String)) k line).map (fun v => (k, v))) = [] := rfl
    by_cases hs : isStart line
    · simp only [interwinner_loop, hfound, hs, if_true, List.nil_append, h1]
    · by_cases ht : isStop line
      · simp only [interwinner_loop, hfound, hs, if_false, ht, if_true, Bool.false_eq_true]
      · cases hdm : dataMatch line with
        | none =>
          simp only [interwinner_loop, hfound, hs, ht, if_false, hdm, Bool.false_eq_true,
            List.nil_append, h2]
        | some row =>
          cases collecting with
          | true =>
            simp only [interwinner_loop, hfound, hs, ht, if_false, hdm, Bool.false_eq_true,
              List.nil_append, h2]
          | false =>
            simp only [interwinner_loop, hfound, hs, ht, if_false, hdm, Bool.false_eq_true,
              List.nil_append, h2]

/-! Claim theorems. -/

/-- C9: the sequence branch of `efficiency_fun` agrees index-wise with the
scalar branch — evaluating a list of energies returns at every index
exactly the `(efficiency, uncertainty)` pair the scalar branch computes for
that energy with the same fitted coefficients. -/
theorem c9_efficiency_seq_refinement {n p : ℕ} (c : Calib n p) (Ey_s : List ℝ) :
    efficiency_fun_list c Ey_s = efficiency_seq_spec c Ey_s := by
  unfold efficiency_fun_list efficiency_seq_spec
  rw [foldl_append_pair (effAt c)]
  simp

/-- C10: indexing a `RadionuclideList` with a string key returns the first
element whose name equals the key and raises `KeyError` when none matches;
`Radionuclide.__eq__` compares names only (nuclides with equal names but
different half-lives compare equal) and raises `TypeError` on an operand
that is neither a string nor a `Radionuclide`. -/
theorem c10_lookup_and_name_equality :
    (∀ (pre post : List RadionuclideData) (r : RadionuclideData) (key : String),
      (∀ x ∈ pre, x.name ≠ key) → r.name = key →
      radionuclideList_getitem_str (pre ++ r :: post) key = .ok r)
    ∧ (∀ (l : List RadionuclideData) (key : String),
      (∀ x ∈ l, x.name ≠ key) →
      radionuclideList_getitem_str l key =
        .error (.keyError ("No radionuclide found with name " ++ key)))
    ∧ (∀ (r₁ r₂ : RadionuclideData), r₁.name = r₂.name →
      radionuclide_eq r₁ (.nuclide r₂) = .ok true)
    ∧ (∀ (r : RadionuclideData) (d : String),
      radionuclide_eq r (.other d) =
        .error (.typeError (d ++ " is not a string or a Radionuclide object."))) := by
  refine ⟨?_, ?_, ?_, ?_⟩
  · intro pre
    induction pre with
    | nil =>
      intro post r key _ hr
      simp [radionuclideList_getitem_str, hr.symm]
    | cons x pre ih =>
      intro post r key hpre hr
      have hx : key ≠ x.name := fun h => hpre x (List.mem_cons_self x pre) h.symm
      simp only [List.cons_append, radionuclideList_getitem_str, if_neg hx]
      exact ih post r key (fun y hy => hpre y (List.mem_cons_of_mem x hy)) hr
  · intro l
    induction l with
    | nil => intro key _; rfl
    | cons x l ih =>
      intro key h
      have hx : key ≠ x.name := fun hk => h x (List.mem_cons_self x l) hk.symm
      simp only [radionuclideList_getitem_str, if_neg hx]
      exact ih key (fun y hy => h y (List.mem_cons_of_mem x hy))
  · intro r₁ r₂ h
    simp [radionuclide_eq, h]
  · intro r d
    rfl

/-- Witness for C10 at concrete inputs: lookup returns the first of two
same-named nuclides, a missing name raises `KeyError`, equal names with
different half-lives compare equal, and an `int`-like operand raises
`TypeError`. -/
theorem c10_lookup_and_name_equality_witness :
    radionuclideList_getitem_str
      [⟨"Zn-63", 1, 0, "h", 100⟩, ⟨"Cu-64", 2, 0, "h", 200⟩, ⟨"Cu-64", 3, 0, "h", 300⟩]
      "Cu-64" = .ok ⟨"Cu-64", 2, 0, "h", 200⟩ ∧
    radionuclideList_getitem_str [⟨"Zn-63", 1, 0, "h", 100⟩] "Ga-66" =
      .error (.keyError ("No radionuclide found with name " ++ "Ga-66")) ∧
    radionuclide_eq ⟨"Cu-64", 2, 0, "h", 200⟩ (.nuclide ⟨"Cu-64", 3, 0, "h", 300⟩) = .ok true ∧
    radionuclide_eq ⟨"Cu-64", 2, 0, "h", 200⟩ (.other "5") =
      .error (.typeError ("5" ++ " is not a string or a Radionuclide object.")) :=
  ⟨c10_lookup_and_name_equality.1 [⟨"Zn-63", 1, 0, "h", 100⟩] [⟨"Cu-64", 3, 0, "h", 300⟩]
      ⟨"Cu-64", 2, 0, "h", 200⟩ "Cu-64" (by decide) rfl,
   c10_lookup_and_name_equality.2.1 [⟨"Zn-63", 1, 0, "h", 100⟩] "Ga-66" (by decide),
   c10_lookup_and_name_equality.2.2.1 ⟨"Cu-64", 2, 0, "h", 200⟩ ⟨"Cu-64", 3, 0, "h", 300⟩ rfl,
   c10_lookup_and_name_equality.2.2.2 ⟨"Cu-64", 2, 0, "h", 200⟩ "5"⟩

/-- C1: the collection loop of `Target.calculate_mean_act_eob` appends the
selected-line EoB activity of every measurement, with no non-zero filter:
with `g_energies = [10]`, `g_line = 10` and two measurements whose
selected-line `(act_eob, err_act_eob)` pairs are `(0, 0)` and `(5, 1)`,
the collected target-level list is `[(0, 0), (5, 1)]` — it contains the
zero-activity entry that the claim (and the comments in the source) say is
excluded, and the subsequent weighted mean computes its weight as
`1 / 0**2`. -/
theorem c1_collect_includes_zero_eob :
    collect_act_eob ([10] : List ℚ) 10 [([0], [0]), ([5], [1])] =
      some [(0, 0), (5, 1)] := by
  norm_num [collect_act_eob, optionMapM, selectAtLine, List.filter]

/-- C2 counterexample: a Genie2K parse in which every required metadata
pattern matches but no line matches the peak-data pattern returns `.ok`
with an empty peak list — no error of any kind is raised for an empty peak
list, contradicting the claim that an empty-result error is raised for
both format variants. -/
theorem c2_no_empty_result_error :
    get_report_Genie2K (fun _ => ["v"]) (fun _ => false) (fun _ => none) ["line"] =
      .ok ([("tar_id", "v"), ("detector_level", "v"), ("detector", "v"),
            ("datetime_meas", "v"), ("live_time", "v"), ("real_time", "v")], []) := rfl

/-- C2 amended: for the Genie2K variant a missing required metadata field
raises `ValueError` naming the first missing key; when every required
pattern matches, the parse returns normally with the collected peak rows —
in particular an empty peak list raises nothing; and the InterWinner
variant raises no error for missing metadata fields — with no metadata
pattern matching anywhere it still returns normally, with empty
metadata. -/
theorem c2_report_parse_errors :
    (∀ (findall : String → List String) (isHeader : String → Bool)
        (dataMatch : String → Option (ℚ × ℚ × ℚ)) (lines : List String) (k : String),
      firstMissingKey findall = some k →
      get_report_Genie2K findall isHeader dataMatch lines =
        .error (.valueError (missingFieldMsg k)))
    ∧ (∀ (findall : String → List String) (isHeader : String → Bool)
        (dataMatch : String → Option (ℚ × ℚ × ℚ)) (lines : List String),
      (∀ k ∈ genie_keys, findall k ≠ []) →
      get_report_Genie2K findall isHeader dataMatch lines =
        .ok (genie_meta_values findall, genie_peaks isHeader dataMatch lines false))
    ∧ (∀ (isStart isStop : String → Bool) (dataMatch : String → Option (ℚ × ℚ × ℚ))
        (lines : List String),
      (get_report_InterWinner (fun _ _ => none) isStart isStop dataMatch lines).1 = []) := by
  refine ⟨?_, ?_, ?_⟩
  · intro findall isHeader dataMatch lines k h
    have hm : genie_metadata findall = .error (.valueError (missingFieldMsg k)) :=
      exceptMapM_error_of_firstMissing findall genie_keys k h
    simp [get_report_Genie2K, hm]
  · intro findall isHeader dataMatch lines h
    have hm : genie_metadata findall = .ok (genie_meta_values findall) :=
      exceptMapM_ok_of_all findall genie_keys h
    simp [get_report_Genie2K, hm]
  · intro isStart isStop dataMatch lines
    exact iw_loop_no_meta isStart isStop dataMatch lines false

/-- Witness for C2 at concrete inputs: with no pattern matching at all, the
Genie2K parse raises the missing-field `ValueError` for the first key, and
the InterWinner parse returns normally with empty metadata. -/
theorem c2_report_parse_errors_witness :
    firstMissingKey (fun _ => []) = some "tar_id" ∧
    get_report_Genie2K (fun _ => []) (fun _ => false) (fun _ => none) [] =
      .error (.valueError (missingFieldMsg "tar_id")) ∧
    (get_report_InterWinner (fun _ _ => none) (fun _ => false) (fun _ => false) (fun _ => none)
      ["x"]).1 = [] :=
  ⟨rfl, c2_report_parse_errors.1 (fun _ => []) (fun _ => false) (fun _ => none) [] "tar_id" rfl,
   c2_report_parse_errors.2.2 (fun _ => false) (fun _ => false) (fun _ => none) ["x"]⟩

/-- C8: cross-section loading — and hence EoB-activity prediction — raises
`ValueError` when the nuclide name does not match the `Element-MassNumber`
pattern, `FileNotFoundError` (the NotFound category of the design) when no
cross-section table exists for the nuclide, and `ValueError` on empty or
malformed cross-section data; in every failure case the prediction returns
the error, never an activity value. -/
theorem c8_cross_section_failures
    (f_xs : List (ℝ × ℝ × ℝ) → ℝ → ℝ) (nuc : String) (xs_keys : List String)
    (read : CsvReadResult)
    (energy t_irr current density foil_thickness lambda_ mol_weight : ℝ) :
    (matchesNuclidePattern nuc = false →
      load_monitor_cross_section nuc xs_keys read = .error (.valueError (badPatternMsg nuc)) ∧
      evaluate_eob_activity f_xs nuc xs_keys read energy t_irr current density foil_thickness
        lambda_ mol_weight = .error (.valueError (badPatternMsg nuc)))
    ∧ (matchesNuclidePattern nuc = true → nuc ∉ xs_keys →
      load_monitor_cross_section nuc xs_keys read =
        .error (.fileNotFoundError (notFoundMsg nuc)) ∧
      evaluate_eob_activity f_xs nuc xs_keys read energy t_irr current density foil_thickness
        lambda_ mol_weight = .error (.fileNotFoundError (notFoundMsg nuc)))
    ∧ (matchesNuclidePattern nuc = true → nuc ∈ xs_keys → read = CsvReadResult.emptyData →
      load_monitor_cross_section nuc xs_keys read = .error (.valueError (emptyCsvMsg nuc)) ∧
      evaluate_eob_activity f_xs nuc xs_keys read energy t_irr current density foil_thickness
        lambda_ mol_weight = .error (.valueError (emptyCsvMsg nuc)))
    ∧ (matchesNuclidePattern nuc = true → nuc ∈ xs_keys → read = CsvReadResult.parserError →
      load_monitor_cross_section nuc xs_keys read = .error (.valueError (malformedCsvMsg nuc)) ∧
      evaluate_eob_activity f_xs nuc xs_keys read energy t_irr current density foil_thickness
        lambda_ mol_weight = .error (.valueError (malformedCsvMsg nuc))) := by
  refine ⟨?_, ?_, ?_, ?_⟩
  · intro h
    have hl : load_monitor_cross_section nuc xs_keys read =
        .error (.valueError (badPatternMsg nuc)) := by
      simp [load_monitor_cross_section, h]
    exact ⟨hl, by simp [evaluate_eob_activity, hl]⟩
  · intro h hmem
    have hl : load_monitor_cross_section nuc xs_keys read =
        .error (.fileNotFoundError (notFoundMsg nuc)) := by
      simp [load_monitor_cross_section, h, hmem]
    exact ⟨hl, by simp [evaluate_eob_activity, hl]⟩
  · intro h hmem hread
    have hl : load_monitor_cross_section nuc xs_keys read =
        .error (.valueError (emptyCsvMsg nuc)) := by
      simp [load_monitor_cross_section, h, hmem, hread]
    exact ⟨hl, by simp [evaluate_eob_activity, hl]⟩
  · intro h hmem hread
    have hl : load_monitor_cross_section nuc xs_keys read =
        .error (.valueError (malformedCsvMsg nuc)) := by
      simp [load_monitor_cross_section, h, hmem, hread]
    exact ⟨hl, by simp [evaluate_eob_activity, hl]⟩

/-- Witness for C8 at concrete inputs: `Cu64` (no dash) fails the pattern
and the prediction returns the bad-name `ValueError`; `Ni-57` matches the
pattern but has no table among `["Cu-64"]`; an empty and a malformed CSV
each yield the corresponding `ValueError`. -/
theorem c8_cross_section_failures_witness :
    matchesNuclidePattern "Cu64" = false ∧
    evaluate_eob_activity (fun _ _ => 0) "Cu64" ["Cu-64"] (CsvReadResult.ok []) 30 3600 1
      8.96 25 0.1 63.5 = .error (.valueError (badPatternMsg "Cu64")) ∧
    load_monitor_cross_section "Ni-57" ["Cu-64"] (CsvReadResult.ok []) =
      .error (.fileNotFoundError (notFoundMsg "Ni-57")) ∧
    load_monitor_cross_section "Cu-64" ["Cu-64"] CsvReadResult.emptyData =
      .error (.valueError (emptyCsvMsg "Cu-64")) ∧
    load_monitor_cross_section "Cu-64" ["Cu-64"] CsvReadResult.parserError =
      .error (.valueError (malformedCsvMsg "Cu-64")) :=
  ⟨by decide,
   ((c8_cross_section_failures (fun _ _ => 0) "Cu64" ["Cu-64"] (CsvReadResult.ok []) 30 3600 1
      8.96 25 0.1 63.5).1 (by decide)).2,
   ((c8_cross_section_failures (fun _ _ => 0) "Ni-57" ["Cu-64"] (CsvReadResult.ok []) 30 3600 1
      8.96 25 0.1 63.5).2.1 (by decide) (by decide)).1,
   ((c8_cross_section_failures (fun _ _ => 0) "Cu-64" ["Cu-64"] CsvReadResult.emptyData 30 3600 1
      8.96 25 0.1 63.5).2.2.1 (by decide) (by decide) rfl).1,
   ((c8_cross_section_failures (fun _ _ => 0) "Cu-64" ["Cu-64"] CsvReadResult.parserError 30 3600
      1 8.96 25 0.1 63.5).2.2.2 (by decide) (by decide) rfl).1⟩

/-- C4: after `calculate_eob_act` every entry of the EoB activity equals
`act * exp(lambda * t_cool)`; the EoB uncertainty is exactly `0` whenever
the measured activity is exactly `0`, and otherwise combines the relative
uncertainty of the activity and the relative uncertainty of the cooling
correction `exp(lambda * t_cool)` in quadrature, scaled by the EoB
activity. -/
theorem c4_eob_activity (Lambda err_Lambda t_cool : ℝ) (act err_act : List ℝ) (i : ℕ)
    (hi : i < act.length) (hlen : err_act.length = act.length) :
    ((calculate_eob_act Lambda err_Lambda t_cool act err_act).1.getD i 0 =
      act.getD i 0 * Real.exp (Lambda * t_cool))
    ∧ (act.getD i 0 = 0 →
      (calculate_eob_act Lambda err_Lambda t_cool act err_act).2.getD i 0 = 0)
    ∧ (act.getD i 0 ≠ 0 →
      (calculate_eob_act Lambda err_Lambda t_cool act err_act).2.getD i 0 =
        Real.sqrt ((err_act.getD i 0 / act.getD i 0) ^ 2 +
            (err_C_cool Lambda err_Lambda t_cool / C_cool Lambda t_cool) ^ 2) *
          (act.getD i 0 * Real.exp (Lambda * t_cool))) := by
  have h2 : (calculate_eob_act Lambda err_Lambda t_cool act err_act).2.getD i 0 =
      (fun a ea =>
        if a = 0 then (0 : ℝ)
        else
          Real.sqrt ((ea / a) ^ 2 +
              (err_C_cool Lambda err_Lambda t_cool / C_cool Lambda t_cool) ^ 2) *
            (a * C_cool Lambda t_cool)) (act.getD i 0) (err_act.getD i 0) :=
    getD_zipWith _ act err_act i hi (by omega) 0 0 0
  refine ⟨?_, ?_, ?_⟩
  · show (act.map (fun a => a * C_cool Lambda t_cool)).getD i 0 = _
    rw [getD_map (fun a => a * C_cool Lambda t_cool) act i hi 0 0]
    rfl
  · intro h0
    rw [h2]
    exact if_pos h0
  · intro h0
    rw [h2]
    simp only [if_neg h0]
    rfl

/-- Witness for C4 at a concrete input: with `act = [0, 2]` and
`err_act = [3, 1]`, the zero-activity entry gets EoB uncertainty exactly
`0` and the other entry gets EoB activity `2 * exp(0.1 * 50)`. -/
theorem c4_eob_activity_witness :
    (calculate_eob_act 0.1 0.01 50 [0, 2] [3, 1]).2.getD 0 0 = 0 ∧
    (calculate_eob_act 0.1 0.01 50 [0, 2] [3, 1]).1.getD 1 0 =
      ([0, 2] : List ℝ).getD 1 0 * Real.exp (0.1 * 50) :=
  ⟨(c4_eob_activity 0.1 0.01 50 [0, 2] [3, 1] 0 (by norm_num) rfl).2.1 (by norm_num),
   (c4_eob_activity 0.1 0.01 50 [0, 2] [3, 1] 1 (by norm_num) rfl).1⟩

/-- C3: for a measurement with positive live and real time,
`calculate_activity` sets each per-line activity to
`(real_time/live_time) * (lambda/(1 - exp(-lambda*real_time))) *
net_counts / (efficiency * intensity)` (intensity being the tabulated
percentage over 100), and each uncertainty to the activity times the
square root of the quadrature sum of the relative uncertainties of net
counts, efficiency and intensity plus the two correction-factor terms,
with the NaN produced at a zero net count replaced by `0`. -/
theorem c3_activity_formula (eff : ℝ → ℝ × ℝ) (Lambda err_Lambda real_time live_time : ℝ)
    (g_energies net_counts err_net_counts intensities err_intensities : List ℝ) (i : ℕ)
    (hlt : 0 < live_time) (hrt : 0 < real_time)
    (hi : i < g_energies.length)
    (h1 : net_counts.length = g_energies.length)
    (h2 : err_net_counts.length = g_energies.length)
    (h3 : intensities.length = g_energies.length)
    (h4 : err_intensities.length = g_energies.length)
    (hInt : intensities.getD i 0 ≠ 0) :
    ((calculate_activity eff Lambda err_Lambda real_time live_time g_energies net_counts
        err_net_counts intensities err_intensities).1.getD i 0 =
      (real_time / live_time) * (Lambda / (1 - Real.exp (-Lambda * real_time))) *
        net_counts.getD i 0 /
        ((eff (g_energies.getD i 0)).1 * (intensities.getD i 0 / 100)))
    ∧ (net_counts.getD i 0 = 0 →
      (calculate_activity eff Lambda err_Lambda real_time live_time g_energies net_counts
        err_net_counts intensities err_intensities).2.getD i 0 = 0)
    ∧ (net_counts.getD i 0 ≠ 0 →
      (calculate_activity eff Lambda err_Lambda real_time live_time g_energies net_counts
          err_net_counts intensities err_intensities).2.getD i 0 =
        (calculate_activity eff Lambda err_Lambda real_time live_time g_energies net_counts
          err_net_counts intensities err_intensities).1.getD i 0 *
          Real.sqrt ((err_net_counts.getD i 0 / net_counts.getD i 0) ^ 2 +
            ((eff (g_energies.getD i 0)).2 / (eff (g_energies.getD i 0)).1) ^ 2 +
            (err_intensities.getD i 0 / intensities.getD i 0) ^ 2 +
            (err_C_dt real_time live_time / C_dt real_time live_time) ^ 2 +
            (err_C_meas Lambda err_Lambda real_time / C_meas Lambda real_time) ^ 2)) := by
  have hmap : i < (g_energies.map eff).length := by simpa using hi
  have hzip1 : i < (net_counts.zip intensities).length := by
    rw [List.length_zip]
    omega
  have hact : (calculate_activity eff Lambda err_Lambda real_time live_time g_energies
      net_counts err_net_counts intensities err_intensities).1.getD i 0 =
      act_entry (C_dt real_time live_time) (C_meas Lambda real_time)
        (net_counts.getD i 0) (eff (g_energies.getD i 0)).1 (intensities.getD i 0) := by
    show (List.zipWith _ (g_energies.map eff) (net_counts.zip intensities)).getD i 0 = _
    rw [getD_zipWith _ (g_energies.map eff) (net_counts.zip intensities) i hmap hzip1 0 (0, 0)
      (0, 0)]
    rw [getD_map eff g_energies i hi (0, 0) 0]
    rw [getD_zip net_counts intensities i (by omega) (by omega) (0, 0) 0 0]
  have hzipnn : i < (net_counts.zip err_net_counts).length := by
    rw [List.length_zip]
    omega
  have hzipl : i < ((g_energies.map eff).zip (net_counts.zip err_net_counts)).length := by
    rw [List.length_zip, List.length_map, List.length_zip]
    omega
  have hzipr : i < (intensities.zip err_intensities).length := by
    rw [List.length_zip]
    omega
  have herr : (calculate_activity eff Lambda err_Lambda real_time live_time g_energies
      net_counts err_net_counts intensities err_intensities).2.getD i 0 =
      nan_to_num (err_act_entry (C_dt real_time live_time) (err_C_dt real_time live_time)
        (C_meas Lambda real_time) (err_C_meas Lambda err_Lambda real_time)
        (net_counts.getD i 0) (err_net_counts.getD i 0)
        (eff (g_energies.getD i 0)).1 (eff (g_energies.getD i 0)).2
        (intensities.getD i 0) (err_intensities.getD i 0)) := by
    show (List.zipWith _ ((g_energies.map eff).zip (net_counts.zip err_net_counts))
        (intensities.zip err_intensities)).getD i 0 = _
    rw [getD_zipWith _ ((g_energies.map eff).zip (net_counts.zip err_net_counts))
      (intensities.zip err_intensities) i hzipl hzipr 0 ((0, 0), (0, 0)) (0, 0)]
    rw [getD_zip (g_energies.map eff) (net_counts.zip err_net_counts) i hmap hzipnn
      ((0, 0), (0, 0)) (0, 0) (0, 0)]
    rw [getD_map eff g_energies i hi (0, 0) 0]
    rw [getD_zip net_counts err_net_counts i (by omega) (by omega) (0, 0) 0 0]
    rw [getD_zip intensities err_intensities i (by omega) (by omega) (0, 0) 0 0]
  refine ⟨?_, ?_, ?_⟩
  · rw [hact]
    simp only [act_entry, C_dt, C_meas]
    ring
  · intro h0
    rw [herr]
    simp only [err_act_entry]
    rw [if_pos h0]
    rfl
  · intro h0
    rw [herr, hact]
    simp only [err_act_entry, if_neg h0, nan_to_num, Option.getD_some]
    have h100 : ((err_intensities.getD i 0 / 100) / (intensities.getD i 0 / 100)) =
        err_intensities.getD i 0 / intensities.getD i 0 := by
      field_simp
    rw [h100, mul_comm]

/-- Witness for C3 at a concrete measurement: one gamma line at 661 keV,
100 net counts, efficiency pair `(2, 1)`, intensity 85 percent,
live time 30 s, real time 33 s. -/
theorem c3_activity_formula_witness :
    (0 : ℝ) < 30 ∧ (0 : ℝ) < 33 ∧ (85 : ℝ) ≠ 0 ∧
    (calculate_activity (fun _ => (2, 1)) 0.1 0.01 33 30 [661] [100] [10] [85] [1]).1.getD 0 0 =
      (33 / 30) * ((0.1 : ℝ) / (1 - Real.exp (-(0.1 : ℝ) * 33))) * 100 / (2 * (85 / 100)) :=
  ⟨by norm_num, by norm_num, by norm_num,
   (c3_activity_formula (fun _ => (2, 1)) 0.1 0.01 33 30 [661] [100] [10] [85] [1] 0
      (by norm_num) (by norm_num) (by norm_num) rfl rfl rfl rfl (by norm_num)).1⟩

/-- C5: a parsed peak matches a candidate gamma line exactly when its
energy deviates from the line energy by strictly less than `1.0`; when no
peak matches, the sentinel `(0.0, 0.0)` is recorded for that line; and
when the matching peaks have a unique deviation minimizer, the net counts
and uncertainty of that closest peak are recorded. -/
theorem c5_peak_match_selection {α : Type} [LinearOrderedField α] [DecidableEq α] :
    (∀ (Ey_s : α) (p : Peak α), matchesLine Ey_s p = true ↔ |p.energy - Ey_s| < 1)
    ∧ (∀ (peaks : List (Peak α)) (Ey_s : α),
        (∀ p ∈ peaks, matchesLine Ey_s p = false) →
        getNetCountsLine peaks Ey_s = some (0, 0))
    ∧ (∀ (peaks : List (Peak α)) (Ey_s : α) (p : Peak α),
        p ∈ peaks → matchesLine Ey_s p = true → peaks.count p = 1 →
        (∀ q ∈ peaks, matchesLine Ey_s q = true → q ≠ p →
          deviation Ey_s p < deviation Ey_s q) →
        getNetCountsLine peaks Ey_s = some (p.net_counts, p.err_net_counts)) := by
  refine ⟨?_, ?_, ?_⟩
  · intro Ey_s p
    simp only [matchesLine, Bool.and_eq_true, decide_eq_true_eq, abs_sub_lt_iff]
    constructor
    · rintro ⟨ha, hb⟩
      constructor <;> linarith
    · rintro ⟨ha, hb⟩
      constructor <;> linarith
  · intro peaks Ey_s h
    have hnil : matchedPeaks peaks Ey_s = [] :=
      List.filter_eq_nil_iff.mpr (fun a ha => by simp [h a ha])
    simp [getNetCountsLine, hnil]
  · intro peaks Ey_s p hp hpm hcount hmin
    have hpms : p ∈ matchedPeaks peaks Ey_s := List.mem_filter.mpr ⟨hp, hpm⟩
    rcases hmm : matchedPeaks peaks Ey_s with _ | ⟨x, _ | ⟨y, tail⟩⟩
    · rw [hmm] at hpms
      cases hpms
    · rw [hmm] at hpms
      have hxp : x = p := (List.mem_singleton.mp hpms).symm
      subst hxp
      simp [getNetCountsLine, hmm]
    · have hms_sub : (matchedPeaks peaks Ey_s).Sublist peaks := List.filter_sublist peaks
      have hmem_ms : ∀ r ∈ x :: y :: tail, r ∈ peaks ∧ matchesLine Ey_s r = true := by
        intro r hr
        have hr2 : r ∈ matchedPeaks peaks Ey_s := by rw [hmm]; exact hr
        exact List.mem_filter.mp hr2
      have hpmem : p ∈ x :: y :: tail := by rw [← hmm]; exact hpms
      have hdle : ∀ r ∈ x :: y :: tail,
          minDeviation Ey_s (x :: y :: tail) ≤ deviation Ey_s r :=
        minDeviation_le Ey_s x (y :: tail)
      have hdp : deviation Ey_s p = minDeviation Ey_s (x :: y :: tail) := by
        obtain ⟨r0, hr0mem, hr0⟩ := minDeviation_attained Ey_s x (y :: tail)
        rcases eq_or_ne r0 p with he | hne
        · rw [he] at hr0
          exact hr0
        · have hlt := hmin r0 (hmem_ms r0 hr0mem).1 (hmem_ms r0 hr0mem).2 hne
          have hge := hdle p hpmem
          exact absurd (lt_of_lt_of_le (hr0 ▸ hlt) hge) (lt_irrefl _)
      have hall : ∀ r ∈ (x :: y :: tail).filter
          (fun r => decide (deviation Ey_s r = minDeviation Ey_s (x :: y :: tail))), r = p := by
        intro r hr
        obtain ⟨hrmem, hrd⟩ := List.mem_filter.mp hr
        have hrd2 : deviation Ey_s r = minDeviation Ey_s (x :: y :: tail) :=
          of_decide_eq_true hrd
        by_contra hne
        have hlt := hmin r (hmem_ms r hrmem).1 (hmem_ms r hrmem).2 hne
        rw [hrd2, ← hdp] at hlt
        exact lt_irrefl _ hlt
      have hpf : p ∈ (x :: y :: tail).filter
          (fun r => decide (deviation Ey_s r = minDeviation Ey_s (x :: y :: tail))) :=
        List.mem_filter.mpr ⟨hpmem, decide_eq_true hdp⟩
      have hcnt1 : ((x :: y :: tail).filter
          (fun r => decide (deviation Ey_s r = minDeviation Ey_s (x :: y :: tail)))).count p
            ≤ 1 := by
        calc ((x :: y :: tail).filter
            (fun r => decide (deviation Ey_s r = minDeviation Ey_s (x :: y :: tail)))).count p
            ≤ (x :: y :: tail).count p := (List.filter_sublist _).count_le p
          _ = (matchedPeaks peaks Ey_s).count p := by rw [hmm]
          _ ≤ peaks.count p := hms_sub.count_le p
          _ = 1 := hcount
      have hlenfl : ((x :: y :: tail).filter
          (fun r => decide (deviation Ey_s r = minDeviation Ey_s (x :: y :: tail)))).length
            = 1 := by
        have hcl := List.count_eq_length.mpr (fun b hb => (hall b hb).symm)
        have hpos := List.count_pos_iff.mpr hpf
        omega
      obtain ⟨z, hz⟩ := List.length_eq_one.mp hlenfl
      have hzp : z = p := hall z (by rw [hz]; exact List.mem_singleton_self z)
      subst hzp
      simp only [getNetCountsLine, hmm, hz]

/-- Witness for C5 at concrete peaks: with line energy 10 and peaks at
10.4, 10.1 and 12, the peak at 10.1 is the unique closest in-tolerance
match and its `(7, 2)` is recorded; with no peak at all, the sentinel
`(0, 0)` is recorded. -/
theorem c5_peak_match_selection_witness :
    getNetCountsLine ([⟨10.4, 100, 5⟩, ⟨10.1, 7, 2⟩, ⟨12, 50, 1⟩] : List (Peak ℚ)) 10 =
      some (7, 2) ∧
    getNetCountsLine ([] : List (Peak ℚ)) 10 = some (0, 0) := by
  constructor
  · refine c5_peak_match_selection.2.2 [⟨10.4, 100, 5⟩, ⟨10.1, 7, 2⟩, ⟨12, 50, 1⟩] 10
      ⟨10.1, 7, 2⟩ (by norm_num [Peak.mk.injEq]) (by norm_num [matchesLine])
      (by norm_num [List.count_cons, Peak.mk.injEq]) ?_
    intro q hq hqm hqp
    fin_cases hq
    · show deviation (10 : ℚ) ⟨10.1, 7, 2⟩ < deviation (10 : ℚ) ⟨10.4, 100, 5⟩
      show |(10.1 : ℚ) - 10| < |(10.4 : ℚ) - 10|
      rw [show (10.1 : ℚ) - 10 = 0.1 by norm_num, show (10.4 : ℚ) - 10 = 0.4 by norm_num,
        abs_of_pos (show (0 : ℚ) < 0.1 by norm_num), abs_of_pos (show (0 : ℚ) < 0.4 by norm_num)]
      norm_num
    · exact absurd rfl hqp
    · exact absurd hqm (by norm_num [matchesLine])
  · exact c5_peak_match_selection.2.1 [] 10 (by simp)

/-- C6: the embedded `get_net_counts` is a function, so repeated runs on
the same inputs always produce the same outcome; when at least two
in-tolerance peaks attain the minimal deviation (in particular two peaks
exactly equidistant from the line), that outcome is deterministically the
error raised by `float(...)` on a multi-element array, modelled as `none`
— never a silent arbitrary choice. -/
theorem c6_equidistant_tie_is_error {α : Type} [LinearOrderedField α] [DecidableEq α]
    (peaks : List (Peak α)) (Ey_s : α)
    (h : 2 ≤ ((matchedPeaks peaks Ey_s).filter
        (fun r => decide (deviation Ey_s r =
          minDeviation Ey_s (matchedPeaks peaks Ey_s)))).length) :
    getNetCountsLine peaks Ey_s = none := by
  rcases hmm : matchedPeaks peaks Ey_s with _ | ⟨x, _ | ⟨y, tail⟩⟩
  · rw [hmm] at h
    simp at h
  · rw [hmm] at h
    have hle := List.length_filter_le
      (fun r => decide (deviation Ey_s r = minDeviation Ey_s [x])) [x]
    simp only [List.length_singleton] at hle
    omega
  · rw [hmm] at h
    simp only [getNetCountsLine, hmm]
    rcases hf : (x :: y :: tail).filter
        (fun r => decide (deviation Ey_s r = minDeviation Ey_s (x :: y :: tail))) with
      _ | ⟨a, _ | ⟨b, t2⟩⟩
    · rw [hf] at h
    · rw [hf] at h
      simp at h
    · rfl

/-- Witness for C6 at concrete peaks: the peaks at 9.5 and 10.5 are both
in tolerance of line 10 and exactly equidistant from it, and the call
returns the error outcome `none`. -/
theorem c6_equidistant_tie_is_error_witness :
    2 ≤ ((matchedPeaks ([⟨9.5, 3, 1⟩, ⟨10.5, 4, 2⟩] : List (Peak ℚ)) 10).filter
        (fun r => decide (deviation 10 r =
          minDeviation 10 (matchedPeaks ([⟨9.5, 3, 1⟩, ⟨10.5, 4, 2⟩] : List (Peak ℚ)) 10)))).length
    ∧ getNetCountsLine ([⟨9.5, 3, 1⟩, ⟨10.5, 4, 2⟩] : List (Peak ℚ)) 10 = none := by
  have e1 : |(9.5 : ℚ) - 10| = 0.5 := by
    rw [show (9.5 : ℚ) - 10 = -(0.5) by norm_num, abs_neg,
      abs_of_pos (show (0 : ℚ) < 0.5 by norm_num)]
  have e2 : |(10.5 : ℚ) - 10| = 0.5 := by
    rw [show (10.5 : ℚ) - 10 = 0.5 by norm_num,
      abs_of_pos (show (0 : ℚ) < 0.5 by norm_num)]
  have hm : matchedPeaks ([⟨9.5, 3, 1⟩, ⟨10.5, 4, 2⟩] : List (Peak ℚ)) 10 =
      [⟨9.5, 3, 1⟩, ⟨10.5, 4, 2⟩] := by
    norm_num [matchedPeaks, List.filter, matchesLine]
  have h2 : 2 ≤ ((matchedPeaks ([⟨9.5, 3, 1⟩, ⟨10.5, 4, 2⟩] : List (Peak ℚ)) 10).filter
      (fun r => decide (deviation 10 r =
        minDeviation 10 (matchedPeaks ([⟨9.5, 3, 1⟩, ⟨10.5, 4, 2⟩] : List (Peak ℚ)) 10)))).length := by
    rw [hm]
    norm_num [List.filter, deviation, minDeviation, List.foldl, e1, e2]
  exact ⟨h2, c6_equidistant_tie_is_error _ _ h2⟩

/-- C7: each pipeline stage produces exactly one entry per candidate gamma
line — a successful `get_net_counts` yields net-count and uncertainty
sequences of the same length as `g_energies`; `calculate_activity` on
line-aligned inputs yields activity and uncertainty sequences of that same
length; and `calculate_eob_act` preserves the common length of the
activity sequences. -/
theorem c7_per_line_alignment :
    (∀ {α : Type} [LinearOrderedField α] [DecidableEq α]
        (peaks : List (Peak α)) (g_energies nc enc : List α),
      getNetCounts peaks g_energies = some (nc, enc) →
      nc.length = g_energies.length ∧ enc.length = g_energies.length)
    ∧ (∀ (eff : ℝ → ℝ × ℝ) (Lambda err_Lambda real_time live_time : ℝ)
        (g_energies net_counts err_net_counts intensities err_intensities : List ℝ),
      net_counts.length = g_energies.length →
      err_net_counts.length = g_energies.length →
      intensities.length = g_energies.length →
      err_intensities.length = g_energies.length →
      (calculate_activity eff Lambda err_Lambda real_time live_time g_energies net_counts
          err_net_counts intensities err_intensities).1.length = g_energies.length ∧
      (calculate_activity eff Lambda err_Lambda real_time live_time g_energies net_counts
          err_net_counts intensities err_intensities).2.length = g_energies.length)
    ∧ (∀ (Lambda err_Lambda t_cool : ℝ) (act err_act : List ℝ),
      err_act.length = act.length →
      (calculate_eob_act Lambda err_Lambda t_cool act err_act).1.length = act.length ∧
      (calculate_eob_act Lambda err_Lambda t_cool act err_act).2.length = act.length) := by
  refine ⟨?_, ?_, ?_⟩
  · intro α instLF instDE peaks g_energies nc enc h
    unfold getNetCounts at h
    cases hm : optionMapM (getNetCountsLine peaks) g_energies with
    | none => rw [hm] at h; exact absurd h (by simp)
    | some l =>
      rw [hm] at h
      simp only [Option.some.injEq, Prod.mk.injEq] at h
      obtain ⟨ha, hb⟩ := h
      have hl := optionMapM_length (getNetCountsLine peaks) g_energies l hm
      constructor
      · rw [← ha, List.length_map]
        exact hl
      · rw [← hb, List.length_map]
        exact hl
  · intro eff Lambda err_Lambda real_time live_time g nc enc I eI hnc henc hI heI
    constructor
    · show (List.zipWith _ (g.map eff) (nc.zip I)).length = g.length
      rw [List.length_zipWith, List.length_map, List.length_zip]
      omega
    · show (List.zipWith _ ((g.map eff).zip (nc.zip enc)) (I.zip eI)).length = g.length
      rw [List.length_zipWith, List.length_zip, List.length_zip, List.length_map,
        List.length_zip]
      omega
  · intro Lambda err_Lambda t_cool act err_act hlen
    constructor
    · show (act.map _).length = act.length
      rw [List.length_map]
    · show (List.zipWith _ act err_act).length = act.length
      rw [List.length_zipWith]
      omega

/-- Witness for C7 at concrete inputs: a one-peak report against two
candidate lines yields two aligned entries, and the activity and EoB
stages keep the per-line lengths. -/
theorem c7_per_line_alignment_witness :
    getNetCounts (α := ℚ) [⟨10.5, 3, 1⟩] [10, 20] = some ([3, 0], [1, 0]) ∧
    ([3, 0] : List ℚ).length = ([10, 20] : List ℚ).length ∧
    ([1, 0] : List ℚ).length = ([10, 20] : List ℚ).length ∧
    ((calculate_activity (fun _ => (2, 1)) 0.1 0.01 33 30 [661, 1115] [100, 200] [10, 14]
        [85, 50] [1, 2]).1.length = ([661, 1115] : List ℝ).length ∧
      (calculate_activity (fun _ => (2, 1)) 0.1 0.01 33 30 [661, 1115] [100, 200] [10, 14]
        [85, 50] [1, 2]).2.length = ([661, 1115] : List ℝ).length) ∧
    ((calculate_eob_act 0.1 0.01 50 [1, 2] [0.1, 0.2]).1.length = ([1, 2] : List ℝ).length ∧
      (calculate_eob_act 0.1 0.01 50 [1, 2] [0.1, 0.2]).2.length = ([1, 2] : List ℝ).length) := by
  have hg : getNetCounts (α := ℚ) [⟨10.5, 3, 1⟩] [10, 20] = some ([3, 0], [1, 0]) := by
    norm_num [getNetCounts, optionMapM, getNetCountsLine, matchedPeaks, List.filter, matchesLine]
  refine ⟨hg, (c7_per_line_alignment.1 _ _ _ _ hg).1, (c7_per_line_alignment.1 _ _ _ _ hg).2,
    ?_, ?_⟩
  · exact c7_per_line_alignment.2.1 (fun _ => (2, 1)) 0.1 0.01 33 30 [661, 1115] [100, 200]
      [10, 14] [85, 50] [1, 2] rfl rfl rfl rfl
  · exact c7_per_line_alignment.2.2 0.1 0.01 50 [1, 2] [0.1, 0.2] rfl

end MonitorXS
